import Mathlib

/-!
A shallow embedding of the create/validate/persist logic of the
Hal9000-Discovery/API-Testing repository.

The embedding covers the write endpoints and reads that the verified
properties refer to:

* `usersPost` and `userGet` embed `Users.post` and `User.get` of `api.py`
  (Flask-RESTful resources over the `users` table);
* `add_drink`, `get_drinks` embed the `/drinks` POST and GET handlers of
  `application.py`;
* `add_new_drink` embeds the script helper of `add_drinks.py`;
* `add_price` embeds the `/prices` POST handler of `application.py`.

Modelling conventions:

* The backing store is an explicit `DB` value (three tables as lists of
  rows, reflecting `users`, `drink`, `Price`).  Every handler is a pure
  function from the store and the parsed request body to a result paired
  with the new store.
* A request body is `Option Obj`: `none` models a request without a JSON
  body, `some o` a parsed JSON object with scalar values (`JVal`).  The
  claims only involve scalar field values, so nested arrays and objects
  are not represented.
* A handler result `HResult` is either a structured response
  (`resp status body`) or an exception that escaped the handler
  (`exc name msg`), e.g. the `IntegrityError` that `Users.post` does not
  catch.
* Library calls are embedded at the fidelity the properties need:
  `datetime.strptime(s, "%Y-%m-%d")` as `strptimeYmd` (four-digit year,
  one/two-digit month and day, calendar validation as done by
  `datetime.date`), `Decimal(str(x))` as `decimalParse ∘ pyStr` on plain
  fixed-point literals (on which `str(Decimal(s)) = s`), the database
  `now()` default as an abstract `Nat` tick passed to the handler, and an
  `infraOk` flag modelling whether the commit round-trip to the store
  succeeds (uniqueness violations are decided by the store contents
  themselves, as the unique constraints do).
* Exception detail strings appended by the handlers via `str(e)` are
  elided; the fixed message prefixes are kept verbatim.
-/

set_option autoImplicit false

namespace ApiTesting

/-- A scalar JSON value as delivered by the request boundary. -/
inductive JVal where
  | jnull
  | jbool (b : Bool)
  | jnum (n : Int)
  | jstr (s : String)
deriving DecidableEq, Repr

/-- A parsed JSON object: the string-keyed mapping a handler reads. -/
abbrev Obj := List (String × JVal)

/-- Dictionary lookup, `request.json.get(k)` / `request.json[k]`. -/
def objGet (o : Obj) (k : String) : Option JVal :=
  (o.find? (fun p => decide (p.1 = k))).map (fun p => p.2)

/-- Python `str()` of a scalar JSON value. -/
def pyStr : JVal → String
  | .jnull => "None"
  | .jbool true => "True"
  | .jbool false => "False"
  | .jnum n => toString n
  | .jstr s => s

/-- Python truthiness of a scalar JSON value (`if end_date_str else None`). -/
def truthy : JVal → Bool
  | .jnull => false
  | .jbool b => b
  | .jnum n => decide (n ≠ 0)
  | .jstr s => decide (s ≠ "")

/-- A scalar value inside a serialized JSON response. -/
inductive BVal where
  | s (v : String)
  | n (v : Int)
  | b (v : Bool)
  | nul
deriving DecidableEq, Repr

/-- A flat serialized JSON object. -/
abbrev BObj := List (String × BVal)

/-- A serialized response body.  The handlers only ever produce a flat
object, a list of flat objects, an object holding such a list, or an
object holding a nested object of messages. -/
inductive Body where
  | obj (o : BObj)
  | arr (l : List BObj)
  | objArr (k : String) (l : List BObj)
  | objObj (k : String) (o : BObj)
deriving DecidableEq, Repr

/-- The outcome of one handler invocation: either a structured HTTP
response, or an exception that escaped the handler unhandled. -/
inductive HResult where
  | resp (status : Nat) (body : Body)
  | exc (ename : String) (emsg : String)
deriving DecidableEq, Repr

/-- The `{"message": m}` body shape used by the error returns. -/
def msgObj (m : String) : Body := .obj [("message", .s m)]

/-- Serialize a request scalar back out (drink names and descriptions are
stored and echoed as received). -/
def toBVal : JVal → BVal
  | .jnull => .nul
  | .jbool b => .b b
  | .jnum n => .n n
  | .jstr s => .s s

/-- The keys of a flat-object response body (empty for other results). -/
def bodyKeys : HResult → List String
  | .resp _ (.obj o) => o.map Prod.fst
  | _ => []

/-- A row of the `users` table of `api.py` (id, name unique, email unique). -/
structure UserRow where
  id : Nat
  name : String
  email : String
deriving DecidableEq, Repr

/-- A row of the `drink` table of `application.py`.  `name` and
`description` hold the scalar received by the handler (the columns are
typed strings but SQLite stores whatever the handler passed; `jnull`
models SQL NULL). -/
structure DrinkRow where
  id : Nat
  name : JVal
  description : JVal
deriving DecidableEq, Repr

/-- A calendar date, as produced by `datetime.strptime(s, "%Y-%m-%d").date()`. -/
structure Date where
  y : Nat
  m : Nat
  d : Nat
deriving DecidableEq, Repr

/-- Strict calendar order on dates. -/
def Date.lt (a b : Date) : Bool :=
  decide (a.y < b.y) ||
    (decide (a.y = b.y) &&
      (decide (a.m < b.m) || (decide (a.m = b.m) && decide (a.d < b.d))))

/-- A row of the `Price` table of `application.py`.  `created_at` is the
server-generated timestamp, modelled as an abstract tick. -/
structure PriceRow where
  price_id : Nat
  drink_id : Int
  price_amount : String
  effective_date : Date
  end_date : Option Date
  created_at : Nat
deriving DecidableEq, Repr

/-- The backing store: the three tables, in insertion order. -/
structure DB where
  users : List UserRow
  drinks : List DrinkRow
  prices : List PriceRow
deriving DecidableEq, Repr

/-- Largest user id in the store (0 when empty). -/
def maxUserId (st : DB) : Nat := st.users.foldr (fun u a => max u.id a) 0

/-- The autoincrement id assigned to the next inserted user (SQLite
assigns max existing id + 1). -/
def newUserId (st : DB) : Nat := maxUserId st + 1

/-- Largest drink id in the store (0 when empty). -/
def maxDrinkId (st : DB) : Nat := st.drinks.foldr (fun d a => max d.id a) 0

/-- The autoincrement id assigned to the next inserted drink. -/
def newDrinkId (st : DB) : Nat := maxDrinkId st + 1

/-- Largest price id in the store (0 when empty). -/
def maxPriceId (st : DB) : Nat := st.prices.foldr (fun p a => max p.price_id a) 0

/-- The autoincrement id assigned to the next inserted price. -/
def newPriceId (st : DB) : Nat := maxPriceId st + 1

/-- Split a character list at every occurrence of `sep` (used to embed the
fixed separators of the `%Y-%m-%d` format and of decimal literals). -/
def chSplit (sep : Char) : List Char → List (List Char)
  | [] => [[]]
  | c :: rest =>
    match chSplit sep rest with
    | [] => [[]]
    | cur :: parts => if c = sep then [] :: cur :: parts else (c :: cur) :: parts

/-- The numeric value of a decimal digit. -/
def digitVal (c : Char) : Option Nat :=
  if decide ('0' ≤ c) && decide (c ≤ '9') then some (c.toNat - '0'.toNat) else none

/-- Accumulator for `natOfDigits`. -/
def natOfDigitsAux : List Char → Nat → Option Nat
  | [], acc => some acc
  | c :: rest, acc =>
    match digitVal c with
    | some d => natOfDigitsAux rest (acc * 10 + d)
    | none => none

/-- Parse a non-empty all-digit character list as a natural number. -/
def natOfDigits (l : List Char) : Option Nat :=
  match l with
  | [] => none
  | _ => natOfDigitsAux l 0

/-- An all-digit, non-empty character list. -/
def allDigits (l : List Char) : Bool := (natOfDigits l).isSome

/-- How many days `datetime.date` accepts in a month. -/
def daysInMonth (y m : Nat) : Nat :=
  if m = 2 then
    (if (y % 4 = 0 && y % 100 ≠ 0) || y % 400 = 0 then 29 else 28)
  else if m = 4 ∨ m = 6 ∨ m = 9 ∨ m = 11 then 30
  else 31

/-- `datetime.strptime(s, "%Y-%m-%d").date()`: a four-digit year, a one or
two digit month in 1..12, a one or two digit day accepted by the calendar;
anything else raises `ValueError`, modelled as `none`. -/
def strptimeYmd (s : String) : Option Date :=
  match chSplit '-' s.data with
  | [ys, ms, ds] =>
    match natOfDigits ys, natOfDigits ms, natOfDigits ds with
    | some y, some m, some d =>
      if ys.length = 4 ∧ ms.length ≤ 2 ∧ ds.length ≤ 2 ∧ 1 ≤ y ∧
          1 ≤ m ∧ m ≤ 12 ∧ 1 ≤ d ∧ d ≤ daysInMonth y m then
        some ⟨y, m, d⟩
      else none
    | _, _, _ => none
  | _ => none

/-- Left-pad a number with zeros to the given width. -/
def padNum (w n : Nat) : String :=
  let s := toString n
  String.mk (List.replicate (w - s.length) '0') ++ s

/-- `date.isoformat()`. -/
def Date.iso (d : Date) : String :=
  padNum 4 d.y ++ "-" ++ padNum 2 d.m ++ "-" ++ padNum 2 d.d

/-- An integer part with no padding zeros (the canonical form `Decimal`
prints back unchanged). -/
def intPartOk (l : List Char) : Bool :=
  match l with
  | [] => false
  | [c] => (digitVal c).isSome
  | c :: rest => decide (c ≠ '0') && (digitVal c).isSome && allDigits rest

/-- `Decimal(s)` on a plain fixed-point literal: an optional minus sign,
an unpadded integer part, and an optional non-empty fraction part.  On
such literals `str(Decimal(s)) = s`, so the parse returns the input
itself as the stored canonical form; every other string is modelled as a
parse failure (raising `InvalidOperation` in the source). -/
def decimalParse (s : String) : Option String :=
  let t := match s.data with
    | '-' :: rest => rest
    | l => l
  let ok := match chSplit '.' t with
    | [a] => intPartOk a
    | [a, b] => intPartOk a && b ≠ [] && allDigits b
    | _ => false
  if ok then some s else none

/-- The field set of the `userFields` marshaller of `api.py`. -/
def marshalUser (u : UserRow) : BObj :=
  [("id", .n u.id), ("name", .s u.name), ("email", .s u.email)]

/-- The argument parsing of `api.py`: a `RequestParser` with two required
`str` arguments, `name` then `email` (both declared with the help text
"Email cannot be blank").  Without `bundle_errors` the parser aborts with
a 400 carrying the help message of the first argument that is missing or
null; present scalars are coerced with `str`. -/
def parse_args (js : Option Obj) : Except (String × String) (String × String) :=
  let get : String → Option JVal := fun k =>
    match js with
    | none => none
    | some o => objGet o k
  let coerce : Option JVal → Option String := fun v =>
    match v with
    | some (.jstr s) => some s
    | some (.jnum n) => some (toString n)
    | some (.jbool b) => some (pyStr (.jbool b))
    | _ => none
  match coerce (get "name") with
  | none => .error ("name", "Email cannot be blank")
  | some n =>
    match coerce (get "email") with
    | none => .error ("email", "Email cannot be blank")
    | some e => .ok (n, e)

/-- The `{"message": {field: help}}` body the request parser aborts with. -/
def reqparseErrBody (field help : String) : Body :=
  .objObj "message" [(field, .s help)]

/-- `Users.post` of `api.py`: parse the arguments, construct a `UserModel`
row, add and commit, then return the whole marshalled user list with 201.
The handler catches nothing: a uniqueness violation at commit surfaces as
an `IntegrityError` escaping the handler, naming the first violated
unique column; any other commit failure escapes likewise. -/
def usersPost (st : DB) (js : Option Obj) (infraOk : Bool) : HResult × DB :=
  match parse_args js with
  | .error (f, h) => (.resp 400 (reqparseErrBody f h), st)
  | .ok (n, e) =>
    if st.users.any (fun u => decide (u.name = n)) then
      (.exc "IntegrityError" "UNIQUE constraint failed: users.name", st)
    else if st.users.any (fun u => decide (u.email = e)) then
      (.exc "IntegrityError" "UNIQUE constraint failed: users.email", st)
    else if infraOk then
      let row : UserRow := ⟨newUserId st, n, e⟩
      let st2 : DB := { st with users := st.users ++ [row] }
      (.resp 201 (.arr (st2.users.map marshalUser)), st2)
    else (.exc "OperationalError" "database connection failure", st)

/-- `User.get` of `api.py`: `filter_by(id=id).first()`, 404 via `abort`
when absent, the marshalled record otherwise. -/
def userGet (st : DB) (id : Nat) : HResult :=
  match st.users.find? (fun u => decide (u.id = id)) with
  | some u => .resp 200 (.obj (marshalUser u))
  | none => .resp 404 (msgObj "User not found")

/-- Whether a drink name collides with a persisted one (the `unique=True`
constraint on `drink.name`, enforced by the store at commit). -/
def drinkNameTaken (st : DB) (n : JVal) : Bool :=
  st.drinks.any (fun d => decide (d.name = n))

/-- The `/drinks` POST handler of `application.py`: read `name` and
`description` from the JSON body by direct indexing (`KeyError` escapes
when a key is absent; a body that is not JSON makes `request.json` raise
before the keys are read), construct a `Drink` row, add and commit
(the store raises `IntegrityError` on a null or duplicate name, which
the handler does not catch), and on success return `{"id": new id}`
with the default 200 status. -/
def add_drink (st : DB) (js : Option Obj) (infraOk : Bool) : HResult × DB :=
  match js with
  | none => (.exc "UnsupportedMediaType" "Did not attempt to load JSON data", st)
  | some o =>
    match objGet o "name" with
    | none => (.exc "KeyError" "name", st)
    | some nv =>
      match objGet o "description" with
      | none => (.exc "KeyError" "description", st)
      | some dv =>
        if nv = JVal.jnull then
          (.exc "IntegrityError" "NOT NULL constraint failed: drink.name", st)
        else if drinkNameTaken st nv then
          (.exc "IntegrityError" "UNIQUE constraint failed: drink.name", st)
        else if infraOk then
          let row : DrinkRow := ⟨newDrinkId st, nv, dv⟩
          (.resp 200 (.obj [("id", .n row.id)]),
            { st with drinks := st.drinks ++ [row] })
        else (.exc "OperationalError" "database connection failure", st)

/-- `add_new_drink` of `add_drinks.py`: construct a `Drink` row from the
two string arguments (`None` allowed for the description), add and
commit; an `IntegrityError` (duplicate name) or any other store error is
caught, the session rolled back, and `None` returned; on success the new
row is returned. -/
def add_new_drink (st : DB) (name : String) (description : Option String)
    (infraOk : Bool) : Option DrinkRow × DB :=
  let nv : JVal := .jstr name
  let dv : JVal := match description with
    | some s => .jstr s
    | none => .jnull
  if drinkNameTaken st nv then (none, st)
  else if infraOk then
    let row : DrinkRow := ⟨newDrinkId st, nv, dv⟩
    (some row, { st with drinks := st.drinks ++ [row] })
  else (none, st)

/-- The per-drink object built by the `/drinks` GET handler: only the
`name` and `description` attributes are copied out. -/
def drinkListItem (d : DrinkRow) : BObj :=
  [("name", toBVal d.name), ("description", toBVal d.description)]

/-- The `/drinks` GET handler of `application.py`: list every stored
drink as `{"name": ..., "description": ...}` under the `drinks` key. -/
def get_drinks (st : DB) : HResult :=
  .resp 200 (.objArr "drinks" (st.drinks.map drinkListItem))

/-- The three fields the `/prices` POST handler requires, in the order it
checks them. -/
def requiredPriceFields : List String := ["drink_id", "price_amount", "effective_date"]

/-- The first required field absent from the body: the handler's loop
returns on the first hit, reporting only that field. -/
def firstMissingField (o : Obj) : Option String :=
  requiredPriceFields.find? (fun f => !(objGet o f).isSome)

/-- The field values of a price request after the handler's parsing
block: the raw `drink_id` scalar, the canonical decimal text of the
amount, and the converted dates. -/
structure ParsedPrice where
  drink_id : JVal
  price_amount : String
  effective_date : Date
  end_date : Option Date
deriving DecidableEq, Repr

/-- The try-block of `add_price`: convert `price_amount` with
`Decimal(str(...))` (failure lands in the generic `except Exception`
branch), convert `effective_date` with `strptime` (a malformed string
raises `ValueError`, a non-string raises `TypeError` caught by the
generic branch), and convert `end_date` the same way when present and
truthy.  Every failure of this block is returned with status 400; the
error carries the message prefix. -/
def parsePriceBody (o : Obj) : Except String ParsedPrice :=
  let did := (objGet o "drink_id").getD .jnull
  let pv := (objGet o "price_amount").getD .jnull
  match decimalParse (pyStr pv) with
  | none => .error "Error parsing request data"
  | some amount =>
    match (objGet o "effective_date").getD .jnull with
    | .jstr es =>
      match strptimeYmd es with
      | none => .error "Invalid data type or format in request"
      | some eff =>
        match objGet o "end_date" with
        | some ev =>
          if truthy ev then
            match ev with
            | .jstr es2 =>
              match strptimeYmd es2 with
              | none => .error "Invalid data type or format in request"
              | some ed => .ok ⟨did, amount, eff, some ed⟩
            | _ => .error "Error parsing request data"
          else .ok ⟨did, amount, eff, none⟩
        | none => .ok ⟨did, amount, eff, none⟩
    | _ => .error "Error parsing request data"

/-- SQLite integer-affinity coercion of the raw `drink_id` scalar used as
a primary-key lookup value: integers and booleans (Python `bool` is an
`int`) compare as integers, integer-looking strings convert, any other
string matches no integer key. -/
def sqliteIntKey : JVal → Option Int
  | .jnum n => some n
  | .jbool b => some (if b then 1 else 0)
  | .jstr s =>
    match s.data with
    | '-' :: rest => (natOfDigits rest).map (fun n => -(n : Int))
    | l => (natOfDigits l).map (fun n => (n : Int))
  | .jnull => none

/-- The 201 body of a successful price insert: every column of the
persisted row, the server-generated `price_id` and `created_at`
included (`Decimal` and the dates serialized back to strings). -/
def priceCreatedBody (row : PriceRow) : Body :=
  .obj [("price_id", .n row.price_id),
        ("drink_id", .n row.drink_id),
        ("price_amount", .s row.price_amount),
        ("effective_date", .s row.effective_date.iso),
        ("end_date", match row.end_date with
          | some d2 => .s d2.iso
          | none => .nul),
        ("created_at", .s (toString row.created_at))]

/-- The `/prices` POST handler of `application.py`.  In source order: a
missing or empty JSON body is a 400; the first missing required field is
a 400 naming just that field; the parsing block converts the values (400
on failure); `Drink.query.get(drink_id)` checks the reference and a miss
is a 404 echoing the raw id; then the row is inserted and committed, and
the full field set returned with 201.  A store failure during the insert
is rolled back and reported as a 500; a null `drink_id` makes the lookup
itself raise, landing in the same generic handler.  There is no check
relating `end_date` to `effective_date`. -/
def add_price (st : DB) (js : Option Obj) (now : Nat) (infraOk : Bool) :
    HResult × DB :=
  match js with
  | none => (.resp 400 (msgObj "Request must be JSON"), st)
  | some o =>
    if o = [] then (.resp 400 (msgObj "Request must be JSON"), st)
    else
      match firstMissingField o with
      | some f =>
        (.resp 400 (msgObj ("Missing required field: \x27" ++ f ++ "\x27")), st)
      | none =>
        match parsePriceBody o with
        | .error m => (.resp 400 (msgObj m), st)
        | .ok p =>
          match p.drink_id with
          | .jnull =>
            (.resp 500 (msgObj "An unexpected error occurred while adding price"), st)
          | v =>
            match sqliteIntKey v with
            | some k =>
              match st.drinks.find? (fun d => decide ((d.id : Int) = k)) with
              | some _ =>
                if infraOk then
                  let row : PriceRow :=
                    ⟨newPriceId st, k, p.price_amount, p.effective_date,
                      p.end_date, now⟩
                  (.resp 201 (priceCreatedBody row),
                    { st with prices := st.prices ++ [row] })
                else
                  (.resp 500
                    (msgObj "An unexpected error occurred while adding price"), st)
              | none =>
                (.resp 404
                  (msgObj ("Drink with ID " ++ pyStr v ++
                    " not found. Cannot add price.")), st)
            | none =>
              (.resp 404
                (msgObj ("Drink with ID " ++ pyStr v ++
                  " not found. Cannot add price.")), st)

/-- An empty store. -/
def dbEmpty : DB := ⟨[], [], []⟩

/-- A store holding one drink, id 1. -/
def dbDrink : DB := ⟨[], [⟨1, .jstr "Coffee", .jnull⟩], []⟩

/-- A store holding one user, id 1. -/
def dbUser : DB := ⟨[⟨1, "alice", "alice.example.com"⟩], [], []⟩

/-- A user create body reusing the persisted name with a fresh email. -/
def objUserDup : Obj := [("name", .jstr "alice"), ("email", .jstr "bob.example.com")]

/-- A user create body with a fresh name and email. -/
def objUserNew : Obj := [("name", .jstr "bob"), ("email", .jstr "bob.example.com")]

/-- A well-formed price body for drink 1 whose end date precedes its
effective date. -/
def objPriceBackDated : Obj :=
  [("drink_id", .jnum 1), ("price_amount", .jstr "3.50"),
    ("effective_date", .jstr "2025-01-02"), ("end_date", .jstr "2025-01-01")]

/-- A well-formed price body referencing the nonexistent drink 999. -/
def objPriceNoDrink : Obj :=
  [("drink_id", .jnum 999), ("price_amount", .jstr "3.50"),
    ("effective_date", .jstr "2025-01-01")]

/-- A price body missing both `drink_id` and `price_amount`. -/
def objPriceMissingTwo : Obj := [("effective_date", .jstr "2025-01-01")]

/-- A drink create body with both fields. -/
def objDrinkFull : Obj := [("name", .jstr "Coffee"), ("description", .jstr "hot beverage")]

/-- A drink create body that supplies only the name. -/
def objDrinkNoDesc : Obj := [("name", .jstr "Cola")]

/-- A drink create body with an explicit null description. -/
def objDrinkNullDesc : Obj := [("name", .jstr "Cola"), ("description", .jnull)]

/-- Total case analysis of `add_price`: every run either leaves the store
untouched and returns something other than a 201, or returns a 201
carrying the full field set of one row appended to the prices table. -/
theorem add_price_cases (st : DB) (js : Option Obj) (now : Nat) (infraOk : Bool) :
    ((add_price st js now infraOk).2 = st ∧
      ∀ b, (add_price st js now infraOk).1 ≠ .resp 201 b)
    ∨ (∃ row, (add_price st js now infraOk).1 = .resp 201 (priceCreatedBody row) ∧
        (add_price st js now infraOk).2 = { st with prices := st.prices ++ [row] }) := by
  unfold add_price
  repeat' split
  all_goals
    first
      | exact Or.inr ⟨_, rfl, rfl⟩
      | exact Or.inl ⟨rfl, fun b h => by simp at h⟩

/-- Total case analysis of `usersPost`: a parse failure returns a 400
with the store untouched, a constraint or infrastructure failure lets an
exception escape with the store untouched, and the remaining case
appends exactly one user row and returns the marshalled list with 201. -/
theorem usersPost_cases (st : DB) (js : Option Obj) (infraOk : Bool) :
    ((usersPost st js infraOk).2 = st ∧
      ∀ b, (usersPost st js infraOk).1 ≠ .resp 201 b)
    ∨ (∃ row, (usersPost st js infraOk).1 =
          .resp 201 (.arr ((st.users ++ [row]).map marshalUser)) ∧
        (usersPost st js infraOk).2 = { st with users := st.users ++ [row] }) := by
  unfold usersPost
  repeat' split
  all_goals
    first
      | exact Or.inr ⟨_, rfl, rfl⟩
      | exact Or.inl ⟨rfl, fun b h => by simp at h⟩

/-- Total case analysis of `add_drink`: every failure path lets an
exception escape with the store untouched; the only structured response
is the success, which appends exactly one drink row and returns just its
id. -/
theorem add_drink_cases (st : DB) (js : Option Obj) (infraOk : Bool) :
    ((add_drink st js infraOk).2 = st ∧
      ∃ en em, (add_drink st js infraOk).1 = .exc en em)
    ∨ (∃ row, (add_drink st js infraOk).1 = .resp 200 (.obj [("id", .n row.id)]) ∧
        (add_drink st js infraOk).2 = { st with drinks := st.drinks ++ [row] }) := by
  unfold add_drink
  repeat' split
  all_goals
    first
      | exact Or.inr ⟨_, rfl, rfl⟩
      | exact Or.inl ⟨rfl, _, _, rfl⟩

/-- Total case analysis of `add_new_drink`: every failure returns `none`
with the store untouched; success returns the one row it appended. -/
theorem add_new_drink_cases (st : DB) (name : String) (description : Option String)
    (infraOk : Bool) :
    ((add_new_drink st name description infraOk).1 = none ∧
      (add_new_drink st name description infraOk).2 = st)
    ∨ (∃ row, (add_new_drink st name description infraOk).1 = some row ∧
        (add_new_drink st name description infraOk).2 =
          { st with drinks := st.drinks ++ [row] }) := by
  unfold add_new_drink
  dsimp only
  repeat' split
  all_goals
    first
      | exact Or.inr ⟨_, rfl, rfl⟩
      | exact Or.inl ⟨rfl, rfl⟩

/-- C1 counterexample: posting a user whose name is already persisted
does not produce a Conflict response — no structured response at all is
produced: the commit-time `IntegrityError` escapes the handler unhandled
(the store is indeed left unchanged). -/
theorem claim_C1_counterexample :
    (usersPost dbUser (some objUserDup) true).1 =
      HResult.exc "IntegrityError" "UNIQUE constraint failed: users.name"
  ∧ (∀ s b, (usersPost dbUser (some objUserDup) true).1 ≠ HResult.resp s b)
  ∧ (usersPost dbUser (some objUserDup) true).2 = dbUser := by
  refine ⟨rfl, ?_, rfl⟩
  intro s b h
  have h1 : (usersPost dbUser (some objUserDup) true).1 =
      HResult.exc "IntegrityError" "UNIQUE constraint failed: users.name" := rfl
  rw [h1] at h
  exact HResult.noConfusion h

/-- C1 amended: for every user create request whose parsed name or email
equals that of an already-persisted user, `Users.post` adds no new row,
but instead of returning a Conflict outcome it lets the commit-time
`IntegrityError` escape the handler boundary unhandled. -/
theorem claim_C1_amended (st : DB) (js : Option Obj) (infraOk : Bool) (n e : String)
    (hp : parse_args js = .ok (n, e))
    (hdup : st.users.any (fun u => decide (u.name = n)) = true ∨
      st.users.any (fun u => decide (u.email = e)) = true) :
    (∃ em, (usersPost st js infraOk).1 = .exc "IntegrityError" em) ∧
    (usersPost st js infraOk).2 = st := by
  by_cases hn : st.users.any (fun u => decide (u.name = n)) = true
  · simp only [usersPost, hp, hn, if_true]
    exact ⟨⟨_, rfl⟩, trivial⟩
  · have he : st.users.any (fun u => decide (u.email = e)) = true := hdup.resolve_left hn
    simp only [usersPost, hp, hn, he, if_true, if_false, Bool.false_eq_true]
    exact ⟨⟨_, rfl⟩, trivial⟩

/-- C1 witness: the amended statement at the concrete duplicate-name
request. -/
theorem claim_C1_witness :
    (∃ em, (usersPost dbUser (some objUserDup) true).1 = .exc "IntegrityError" em) ∧
    (usersPost dbUser (some objUserDup) true).2 = dbUser :=
  claim_C1_amended dbUser (some objUserDup) true "alice" "bob.example.com" rfl
    (Or.inl (by decide))

/-- C2: on every create path of every kind, a non-success outcome leaves
the store exactly as it was, and a success appends exactly one row to the
relevant table: `add_price` (non-201 responses leave the store untouched,
a 201 appends one price row), `Users.post` (an escaped exception or a 400
leaves the store untouched, a 201 appends one user row), the `/drinks`
POST handler (an escaped exception leaves the store untouched, its only
structured response appends one drink row), and `add_new_drink` (`None`
leaves the store untouched, a returned row was appended). -/
theorem claim_C2_store_integrity :
    (∀ st js now infraOk,
      (∀ s b, (add_price st js now infraOk).1 = .resp s b → s ≠ 201 →
        (add_price st js now infraOk).2 = st) ∧
      (∀ b, (add_price st js now infraOk).1 = .resp 201 b →
        ∃ row, (add_price st js now infraOk).2 = { st with prices := st.prices ++ [row] }))
  ∧ (∀ st js infraOk,
      (∀ en em, (usersPost st js infraOk).1 = .exc en em →
        (usersPost st js infraOk).2 = st) ∧
      (∀ b, (usersPost st js infraOk).1 = .resp 400 b →
        (usersPost st js infraOk).2 = st) ∧
      (∀ b, (usersPost st js infraOk).1 = .resp 201 b →
        ∃ row, (usersPost st js infraOk).2 = { st with users := st.users ++ [row] }))
  ∧ (∀ st js infraOk,
      (∀ en em, (add_drink st js infraOk).1 = .exc en em →
        (add_drink st js infraOk).2 = st) ∧
      (∀ s b, (add_drink st js infraOk).1 = .resp s b →
        ∃ row, (add_drink st js infraOk).2 = { st with drinks := st.drinks ++ [row] }))
  ∧ (∀ st nm ds infraOk,
      ((add_new_drink st nm ds infraOk).1 = none →
        (add_new_drink st nm ds infraOk).2 = st) ∧
      (∀ row, (add_new_drink st nm ds infraOk).1 = some row →
        (add_new_drink st nm ds infraOk).2 = { st with drinks := st.drinks ++ [row] })) := by
  refine ⟨?_, ?_, ?_, ?_⟩
  · intro st js now infraOk
    rcases add_price_cases st js now infraOk with ⟨h2, hne⟩ | ⟨row, h1, h2⟩
    · exact ⟨fun s b _ _ => h2, fun b hb => absurd hb (hne b)⟩
    · refine ⟨fun s b hb hs => ?_, fun b _ => ⟨row, h2⟩⟩
      rw [h1] at hb
      injection hb with h201 _
      exact absurd h201.symm hs
  · intro st js infraOk
    rcases usersPost_cases st js infraOk with ⟨h2, hne⟩ | ⟨row, h1, h2⟩
    · refine ⟨fun en em _ => h2, fun b _ => h2, fun b hb => absurd hb (hne b)⟩
    · refine ⟨fun en em hb => ?_, fun b hb => ?_, fun b _ => ⟨row, h2⟩⟩
      · rw [h1] at hb
        exact HResult.noConfusion hb
      · rw [h1] at hb
        injection hb with hst _
        exact absurd hst (by decide)
  · intro st js infraOk
    rcases add_drink_cases st js infraOk with ⟨h2, en, em, he⟩ | ⟨row, h1, h2⟩
    · refine ⟨fun _ _ _ => h2, fun s b hb => ?_⟩
      rw [he] at hb
      exact HResult.noConfusion hb
    · refine ⟨fun en2 em2 hb => ?_, fun s b _ => ⟨row, h2⟩⟩
      rw [h1] at hb
      exact HResult.noConfusion hb
  · intro st nm ds infraOk
    rcases add_new_drink_cases st nm ds infraOk with ⟨h1, h2⟩ | ⟨row, h1, h2⟩
    · refine ⟨fun _ => h2, fun row hb => ?_⟩
      rw [h1] at hb
      exact Option.noConfusion hb
    · refine ⟨fun hb => ?_, fun row2 hb => ?_⟩
      · rw [h1] at hb
        exact Option.noConfusion hb
      · rw [h1] at hb
        injection hb with hr
        rw [← hr]
        exact h2

/-- C2 witness: the store-integrity statement applied at concrete runs —
a rejected price create leaves the empty store empty, a successful price
create appends one row, and a successful drink create appends one row. -/
theorem claim_C2_witness :
    (add_price dbEmpty none 0 true).2 = dbEmpty
  ∧ (∃ row, (add_price dbDrink (some objPriceBackDated) 7 true).2 =
      { dbDrink with prices := dbDrink.prices ++ [row] })
  ∧ (∃ row, (add_drink dbEmpty (some objDrinkFull) true).2 =
      { dbEmpty with drinks := dbEmpty.drinks ++ [row] }) :=
  ⟨(claim_C2_store_integrity.1 dbEmpty none 0 true).1 400
      (msgObj "Request must be JSON") rfl (by decide),
    (claim_C2_store_integrity.1 dbDrink (some objPriceBackDated) 7 true).2
      (priceCreatedBody ⟨1, 1, "3.50", ⟨2025, 1, 2⟩, some ⟨2025, 1, 1⟩, 7⟩) rfl,
    (claim_C2_store_integrity.2.2.1 dbEmpty (some objDrinkFull) true).2 200
      (.obj [("id", .n 1)]) rfl⟩

/-- C3 counterexample: a price create whose end date precedes its
effective date is not rejected — with drink 1 persisted it returns 201
and persists the row. -/
theorem claim_C3_counterexample :
    Date.lt ⟨2025, 1, 1⟩ ⟨2025, 1, 2⟩ = true
  ∧ (add_price dbDrink (some objPriceBackDated) 7 true).1 =
      .resp 201 (priceCreatedBody ⟨1, 1, "3.50", ⟨2025, 1, 2⟩, some ⟨2025, 1, 1⟩, 7⟩)
  ∧ (add_price dbDrink (some objPriceBackDated) 7 true).2.prices =
      [⟨1, 1, "3.50", ⟨2025, 1, 2⟩, some ⟨2025, 1, 1⟩, 7⟩] :=
  ⟨rfl, rfl, rfl⟩

/-- C3 amended: `add_price` performs no ordering check between
`end_date` and `effective_date`; a request whose end date precedes its
effective date passes through like any other, and when its fields parse,
the referenced drink exists and the commit succeeds, the outcome is
Created (201) with the row persisted. -/
theorem claim_C3_amended (st : DB) (o : Obj) (now : Nat) (p : ParsedPrice)
    (k : Int) (dr : DrinkRow) (ed : Date)
    (hne : ¬ o = [])
    (hmiss : firstMissingField o = none)
    (hp : parsePriceBody o = .ok p)
    (hid : p.drink_id = .jnum k)
    (hfind : st.drinks.find? (fun d => decide ((d.id : Int) = k)) = some dr)
    (hend : p.end_date = some ed)
    (hlt : Date.lt ed p.effective_date = true) :
    (add_price st (some o) now true).1 =
      .resp 201 (priceCreatedBody
        ⟨newPriceId st, k, p.price_amount, p.effective_date, p.end_date, now⟩)
  ∧ (add_price st (some o) now true).2 =
      { st with prices := st.prices ++
        [⟨newPriceId st, k, p.price_amount, p.effective_date, p.end_date, now⟩] } := by
  simp only [add_price, if_neg hne, hmiss, hp, hid, sqliteIntKey, hfind, if_true]
  exact ⟨by trivial, by trivial⟩

/-- C3 witness: the amended statement at the concrete back-dated
request. -/
theorem claim_C3_witness :
    (add_price dbDrink (some objPriceBackDated) 7 true).1 =
      .resp 201 (priceCreatedBody
        ⟨newPriceId dbDrink, 1, "3.50", ⟨2025, 1, 2⟩, some ⟨2025, 1, 1⟩, 7⟩)
  ∧ (add_price dbDrink (some objPriceBackDated) 7 true).2 =
      { dbDrink with prices := dbDrink.prices ++
        [⟨newPriceId dbDrink, 1, "3.50", ⟨2025, 1, 2⟩, some ⟨2025, 1, 1⟩, 7⟩] } :=
  claim_C3_amended dbDrink objPriceBackDated 7
    ⟨.jnum 1, "3.50", ⟨2025, 1, 2⟩, some ⟨2025, 1, 1⟩⟩ 1 ⟨1, .jstr "Coffee", .jnull⟩
    ⟨2025, 1, 1⟩ (by decide) rfl rfl rfl rfl rfl rfl

/-- C4 counterexample: a price create referencing the nonexistent drink
999 returns 404 with the message "Drink with ID 999 not found. Cannot
add price.", not a 400 Rejected with reason "referenced drink not
found"; no row is added. -/
theorem claim_C4_counterexample :
    (add_price dbEmpty (some objPriceNoDrink) 0 true).1 =
      .resp 404 (msgObj "Drink with ID 999 not found. Cannot add price.")
  ∧ (add_price dbEmpty (some objPriceNoDrink) 0 true).1 ≠
      .resp 400 (msgObj "referenced drink not found")
  ∧ (add_price dbEmpty (some objPriceNoDrink) 0 true).2 = dbEmpty :=
  ⟨rfl, by decide, rfl⟩

/-- C4 amended: for every price create whose integer `drink_id` matches
no persisted drink, `add_price` returns 404 with the message
"Drink with ID {id} not found. Cannot add price.", and the store is left
unchanged (no row is added to the prices table). -/
theorem claim_C4_amended (st : DB) (o : Obj) (now : Nat) (infraOk : Bool)
    (p : ParsedPrice) (k : Int)
    (hne : ¬ o = [])
    (hmiss : firstMissingField o = none)
    (hp : parsePriceBody o = .ok p)
    (hid : p.drink_id = .jnum k)
    (hfind : st.drinks.find? (fun d => decide ((d.id : Int) = k)) = none) :
    add_price st (some o) now infraOk =
      (.resp 404 (msgObj ("Drink with ID " ++ toString k ++
        " not found. Cannot add price.")), st) := by
  simp only [add_price, if_neg hne, hmiss, hp, hid, sqliteIntKey, hfind, pyStr]

/-- C4 witness: the amended statement at the concrete request for drink
999 against the empty store. -/
theorem claim_C4_witness :
    add_price dbEmpty (some objPriceNoDrink) 0 true =
      (.resp 404 (msgObj ("Drink with ID " ++ toString (999 : Int) ++
        " not found. Cannot add price.")), dbEmpty) :=
  claim_C4_amended dbEmpty objPriceNoDrink 0 true
    ⟨.jnum 999, "3.50", ⟨2025, 1, 1⟩, none⟩ 999 (by decide) rfl rfl rfl rfl

/-- C5 counterexample: a price create missing both `drink_id` and
`price_amount` is answered with a single message naming only
`drink_id` — the validation stops at the first missing field instead of
reporting one message per offending field. -/
theorem claim_C5_counterexample :
    objGet objPriceMissingTwo "drink_id" = none
  ∧ objGet objPriceMissingTwo "price_amount" = none
  ∧ add_price dbEmpty (some objPriceMissingTwo) 0 true =
      (.resp 400 (msgObj "Missing required field: \x27drink_id\x27"), dbEmpty) :=
  ⟨rfl, rfl, rfl⟩

/-- C5 amended: the required-field validation of `add_price` stops at
the first missing field in the order `drink_id`, `price_amount`,
`effective_date`, returning a 400 with exactly one message naming that
field, regardless of how many other required fields are also missing. -/
theorem claim_C5_amended :
    (∀ (st : DB) (o : Obj) (now : Nat) (infraOk : Bool), ¬ o = [] →
      objGet o "drink_id" = none →
      add_price st (some o) now infraOk =
        (.resp 400 (msgObj "Missing required field: \x27drink_id\x27"), st))
  ∧ (∀ (st : DB) (o : Obj) (now : Nat) (infraOk : Bool), ¬ o = [] →
      (objGet o "drink_id").isSome = true →
      objGet o "price_amount" = none →
      add_price st (some o) now infraOk =
        (.resp 400 (msgObj "Missing required field: \x27price_amount\x27"), st)) := by
  constructor
  · intro st o now infraOk hne h1
    have hm : firstMissingField o = some "drink_id" := by
      simp [firstMissingField, requiredPriceFields, List.find?_cons, h1]
    simp only [add_price, if_neg hne, hm]
    rfl
  · intro st o now infraOk hne h1 h2
    obtain ⟨v, hv⟩ := Option.isSome_iff_exists.mp h1
    have hm : firstMissingField o = some "price_amount" := by
      simp [firstMissingField, requiredPriceFields, List.find?_cons, hv, h2]
    simp only [add_price, if_neg hne, hm]
    rfl

/-- C5 witness: the amended statement at the concrete request missing
both `drink_id` and `price_amount`. -/
theorem claim_C5_witness :
    add_price dbEmpty (some objPriceMissingTwo) 0 true =
      (.resp 400 (msgObj "Missing required field: \x27drink_id\x27"), dbEmpty) :=
  claim_C5_amended.1 dbEmpty objPriceMissingTwo 0 true (by decide) rfl

/-- C6 counterexample: a successful drink create answers with only the
new identifier — the persisted `name` and `description` are absent from
the response body, so not every successful create echoes the full
persisted field set. -/
theorem claim_C6_counterexample :
    (add_drink dbEmpty (some objDrinkFull) true).1 = .resp 200 (.obj [("id", .n 1)])
  ∧ bodyKeys (add_drink dbEmpty (some objDrinkFull) true).1 = ["id"]
  ∧ (add_drink dbEmpty (some objDrinkFull) true).2.drinks =
      [⟨1, .jstr "Coffee", .jstr "hot beverage"⟩] :=
  ⟨rfl, rfl, rfl⟩

/-- C6 amended: a successful price create does return the new identifier
with the full persisted field set including the server-generated
`created_at`; a successful drink create, however, returns only the new
identifier. -/
theorem claim_C6_amended :
    (∀ st js now infraOk b, (add_price st js now infraOk).1 = .resp 201 b →
      ∃ row, b = priceCreatedBody row ∧
        (add_price st js now infraOk).2 = { st with prices := st.prices ++ [row] })
  ∧ (∀ st js infraOk s b, (add_drink st js infraOk).1 = .resp s b →
      ∃ row, b = Body.obj [("id", .n row.id)] ∧
        bodyKeys (add_drink st js infraOk).1 = ["id"] ∧
        (add_drink st js infraOk).2 = { st with drinks := st.drinks ++ [row] }) := by
  constructor
  · intro st js now infraOk b hb
    rcases add_price_cases st js now infraOk with ⟨_, hne⟩ | ⟨row, h1, h2⟩
    · exact absurd hb (hne b)
    · rw [h1] at hb
      injection hb with _ hbody
      exact ⟨row, hbody.symm, h2⟩
  · intro st js infraOk s b hb
    rcases add_drink_cases st js infraOk with ⟨_, en, em, he⟩ | ⟨row, h1, h2⟩
    · rw [he] at hb
      exact HResult.noConfusion hb
    · rw [h1] at hb
      injection hb with _ hbody
      refine ⟨row, hbody.symm, ?_, h2⟩
      rw [h1]
      rfl

/-- C6 witness: the amended statement at a concrete successful price
create and a concrete successful drink create. -/
theorem claim_C6_witness :
    (∃ row, priceCreatedBody ⟨1, 1, "3.50", ⟨2025, 1, 2⟩, some ⟨2025, 1, 1⟩, 7⟩ =
        priceCreatedBody row ∧
      (add_price dbDrink (some objPriceBackDated) 7 true).2 =
        { dbDrink with prices := dbDrink.prices ++ [row] })
  ∧ (∃ row, Body.obj [("id", BVal.n 1)] = Body.obj [("id", .n row.id)] ∧
      bodyKeys (add_drink dbEmpty (some objDrinkFull) true).1 = ["id"] ∧
      (add_drink dbEmpty (some objDrinkFull) true).2 =
        { dbEmpty with drinks := dbEmpty.drinks ++ [row] }) :=
  ⟨claim_C6_amended.1 dbDrink (some objPriceBackDated) 7 true _ rfl,
    claim_C6_amended.2 dbEmpty (some objDrinkFull) true 200 _ rfl⟩

/-- Every member of a user list has its id bounded by the fold that
computes the table maximum. -/
theorem userId_le_listMax (l : List UserRow) (u : UserRow) (hu : u ∈ l) :
    u.id ≤ l.foldr (fun v a => max v.id a) 0 := by
  induction l with
  | nil => cases hu
  | cons x xs ih =>
    rcases List.mem_cons.mp hu with h | h
    · subst h
      exact Nat.le_max_left _ _
    · exact Nat.le_trans (ih h) (Nat.le_max_right _ _)

/-- C7: a valid user create with previously-unused name and email
returns 201 with the newly assigned identifier (the marshalled list
including the new row), and fetching that identifier afterwards returns
the record with exactly the submitted name and email. -/
theorem claim_C7_create_then_fetch (st : DB) (js : Option Obj) (n e : String)
    (hp : parse_args js = .ok (n, e))
    (hn : st.users.any (fun u => decide (u.name = n)) = false)
    (he : st.users.any (fun u => decide (u.email = e)) = false) :
    usersPost st js true =
      (.resp 201 (.arr ((st.users ++ [(⟨newUserId st, n, e⟩ : UserRow)]).map marshalUser)),
        { st with users := st.users ++ [⟨newUserId st, n, e⟩] })
  ∧ userGet { st with users := st.users ++ [⟨newUserId st, n, e⟩] } (newUserId st) =
      .resp 200 (.obj [("id", .n (newUserId st)), ("name", .s n), ("email", .s e)]) := by
  have hn2 : ¬ ((st.users.any fun u => decide (u.name = n)) = true) := by
    simp [hn]
  have he2 : ¬ ((st.users.any fun u => decide (u.email = e)) = true) := by
    simp [he]
  constructor
  · simp only [usersPost, hp]
    rw [if_neg hn2, if_neg he2, if_pos trivial]
  · have hnone : st.users.find? (fun u => decide (u.id = newUserId st)) = none := by
      refine List.find?_eq_none.mpr ?_
      intro u hu
      simp only [decide_eq_true_eq]
      intro hEq
      have hle : u.id ≤ maxUserId st := userId_le_listMax st.users u hu
      rw [hEq] at hle
      unfold newUserId at hle
      omega
    have hfind : ({ st with users := st.users ++ [⟨newUserId st, n, e⟩]} : DB).users.find?
        (fun u => decide (u.id = newUserId st)) = some ⟨newUserId st, n, e⟩ := by
      show (st.users ++ [(⟨newUserId st, n, e⟩ : UserRow)]).find? _ = _
      rw [List.find?_append, hnone]
      simp [List.find?]
    simp only [userGet, hfind]
    rfl

/-- C7 witness: creating user "bob" against a store holding only user 1
and fetching the assigned id 2. -/
theorem claim_C7_witness :
    usersPost dbUser (some objUserNew) true =
      (.resp 201 (.arr ((dbUser.users ++
          [(⟨newUserId dbUser, "bob", "bob.example.com"⟩ : UserRow)]).map marshalUser)),
        { dbUser with users := dbUser.users ++
          [⟨newUserId dbUser, "bob", "bob.example.com"⟩] })
  ∧ userGet { dbUser with users := dbUser.users ++
        [⟨newUserId dbUser, "bob", "bob.example.com"⟩] } (newUserId dbUser) =
      .resp 200 (.obj [("id", .n (newUserId dbUser)), ("name", .s "bob"),
        ("email", .s "bob.example.com")]) :=
  claim_C7_create_then_fetch dbUser (some objUserNew) "bob" "bob.example.com"
    rfl (by decide) (by decide)

/-- C8 counterexample: a drink create supplying only `name` does not
succeed — no structured response is produced at all: the handler indexes
the absent `description` key and the `KeyError` escapes, with nothing
persisted. -/
theorem claim_C8_counterexample :
    add_drink dbEmpty (some objDrinkNoDesc) true = (.exc "KeyError" "description", dbEmpty)
  ∧ (∀ s b, (add_drink dbEmpty (some objDrinkNoDesc) true).1 ≠ HResult.resp s b) := by
  refine ⟨rfl, ?_⟩
  intro s b h
  have h1 : (add_drink dbEmpty (some objDrinkNoDesc) true).1 =
      HResult.exc "KeyError" "description" := rfl
  rw [h1] at h
  exact HResult.noConfusion h

/-- C8 amended: the `description` column is optional only at the storage
layer: the handler itself requires the key to be present.  Omitting the
`description` key makes the handler raise an unhandled `KeyError` with
nothing persisted; supplying `description` as null succeeds and persists
a null description. -/
theorem claim_C8_amended :
    (∀ (st : DB) (o : Obj) (infraOk : Bool) (nv : JVal),
      objGet o "name" = some nv → objGet o "description" = none →
      add_drink st (some o) infraOk = (.exc "KeyError" "description", st))
  ∧ (∀ (st : DB) (o : Obj) (nv : JVal),
      objGet o "name" = some nv → objGet o "description" = some JVal.jnull →
      ¬ nv = JVal.jnull → drinkNameTaken st nv = false →
      add_drink st (some o) true =
        (.resp 200 (.obj [("id", .n (newDrinkId st))]),
          { st with drinks := st.drinks ++ [⟨newDrinkId st, nv, .jnull⟩] })) := by
  constructor
  · intro st o infraOk nv hname hdesc
    simp only [add_drink, hname, hdesc]
  · intro st o nv hname hdesc hnn hnt
    have hnt2 : ¬ (drinkNameTaken st nv = true) := by simp [hnt]
    simp only [add_drink, hname, hdesc]
    rw [if_neg hnn, if_neg hnt2, if_pos trivial]

/-- C8 witness: the amended statement at the concrete name-only request
and at the concrete null-description request. -/
theorem claim_C8_witness :
    add_drink dbEmpty (some objDrinkNoDesc) true = (.exc "KeyError" "description", dbEmpty)
  ∧ add_drink dbEmpty (some objDrinkNullDesc) true =
      (.resp 200 (.obj [("id", .n (newDrinkId dbEmpty))]),
        { dbEmpty with drinks := dbEmpty.drinks ++
          [⟨newDrinkId dbEmpty, .jstr "Cola", .jnull⟩] }) :=
  ⟨claim_C8_amended.1 dbEmpty objDrinkNoDesc true (.jstr "Cola") rfl rfl,
    claim_C8_amended.2 dbEmpty objDrinkNullDesc (.jstr "Cola") rfl rfl
      (by decide) rfl⟩

/-- C9: rejection is idempotent.  Any run of `add_price` answering with
a non-201 response leaves the store unchanged, and resubmitting the
identical input against the resulting store returns the identical
outcome; likewise for a 400 rejection of `Users.post`. -/
theorem claim_C9_rejection_idempotent :
    (∀ st js now infraOk s b, (add_price st js now infraOk).1 = .resp s b → s ≠ 201 →
      (add_price st js now infraOk).2 = st ∧
      add_price (add_price st js now infraOk).2 js now infraOk =
        add_price st js now infraOk)
  ∧ (∀ st js infraOk b, (usersPost st js infraOk).1 = .resp 400 b →
      (usersPost st js infraOk).2 = st ∧
      usersPost (usersPost st js infraOk).2 js infraOk = usersPost st js infraOk) := by
  constructor
  · intro st js now infraOk s b hb hs
    have h2 : (add_price st js now infraOk).2 = st := by
      rcases add_price_cases st js now infraOk with ⟨h2, _⟩ | ⟨row, h1, _⟩
      · exact h2
      · rw [h1] at hb
        injection hb with h201 _
        exact absurd h201.symm hs
    exact ⟨h2, by rw [h2]⟩
  · intro st js infraOk b hb
    have h2 : (usersPost st js infraOk).2 = st := by
      rcases usersPost_cases st js infraOk with ⟨h2, _⟩ | ⟨row, h1, _⟩
      · exact h2
      · rw [h1] at hb
        injection hb with h201 _
        exact absurd h201 (by decide)
    exact ⟨h2, by rw [h2]⟩

/-- C9 witness: the statement at the concrete invalid price request
missing two required fields. -/
theorem claim_C9_witness :
    (add_price dbEmpty (some objPriceMissingTwo) 0 true).2 = dbEmpty
  ∧ add_price (add_price dbEmpty (some objPriceMissingTwo) 0 true).2
      (some objPriceMissingTwo) 0 true =
      add_price dbEmpty (some objPriceMissingTwo) 0 true :=
  claim_C9_rejection_idempotent.1 dbEmpty (some objPriceMissingTwo) 0 true 400
    (msgObj "Missing required field: \x27drink_id\x27") rfl (by decide)

/-- C10: the drinks listing exposes, for each stored drink, an object
whose keys are exactly `name` and `description` — the assigned id is
never included — while the only structured response of the drink create
carries exactly the key `id`. -/
theorem claim_C10_listing_shape :
    (∀ st : DB, get_drinks st = .resp 200 (.objArr "drinks" (st.drinks.map drinkListItem))
      ∧ (∀ o ∈ st.drinks.map drinkListItem,
          o.map Prod.fst = ["name", "description"] ∧ ¬ "id" ∈ o.map Prod.fst))
  ∧ (∀ st js infraOk s b, (add_drink st js infraOk).1 = .resp s b →
      bodyKeys (add_drink st js infraOk).1 = ["id"]) := by
  constructor
  · intro st
    refine ⟨rfl, ?_⟩
    intro o ho
    rcases List.mem_map.mp ho with ⟨d, _, rfl⟩
    have hkeys : (drinkListItem d).map Prod.fst = ["name", "description"] := rfl
    refine ⟨hkeys, ?_⟩
    rw [hkeys]
    decide
  · intro st js infraOk s b hb
    rcases add_drink_cases st js infraOk with ⟨_, en, em, he⟩ | ⟨row, h1, _⟩
    · rw [he] at hb
      exact HResult.noConfusion hb
    · rw [h1]
      rfl

/-- C10 witness: the listing statement at a store holding one drink, and
the create-response statement at a concrete successful drink create. -/
theorem claim_C10_witness :
    get_drinks dbDrink = .resp 200 (.objArr "drinks" (dbDrink.drinks.map drinkListItem))
  ∧ ((drinkListItem ⟨1, .jstr "Coffee", .jnull⟩).map Prod.fst = ["name", "description"]
      ∧ ¬ "id" ∈ (drinkListItem ⟨1, .jstr "Coffee", .jnull⟩).map Prod.fst)
  ∧ bodyKeys (add_drink dbEmpty (some objDrinkFull) true).1 = ["id"] :=
  ⟨(claim_C10_listing_shape.1 dbDrink).1,
    (claim_C10_listing_shape.1 dbDrink).2 (drinkListItem ⟨1, .jstr "Coffee", .jnull⟩)
      (by decide),
    claim_C10_listing_shape.2 dbEmpty (some objDrinkFull) true 200
      (.obj [("id", .n 1)]) rfl⟩

end ApiTesting
